import Mathlib

/-!
Shallow embedding of `analyze_pr.py` (PRAnalyzer): a CI script that reads a
GitHub pull-request event, extracts PR metadata and image URLs from the PR
description, downloads up to three images, queries a generative model, and
posts the result as a comment.

Python dictionaries and JSON payloads are modelled by the `Json` inductive;
`sys.exit(1)` is modelled by the `ProcResult.exit` constructor; network calls
are modelled by transport functions passed as parameters, returning
`Except Unit HttpResponse` where `Except.error` stands for a raised
transport exception (including timeouts).
-/

/-- JSON values, as produced by Python `json.load` / `response.json()`.
Objects are association lists with distinct keys (Python dict semantics). -/
inductive Json where
  | null
  | bool (b : Bool)
  | num (n : Int)
  | str (s : String)
  | arr (elems : List Json)
  | obj (fields : List (String × Json))

/-- `d.get(key)` on a Python dict: `some v` when the key is present, `none`
when it is absent or the value is not a dict at all. -/
def Json.get : Json → String → Option Json
  | .obj fields, key => fields.lookup key
  | _, _ => none

/-- Python truthiness (`if not pr:`): `None`, `False`, `0`, the empty string,
the empty list and the empty dict are falsy; everything else is truthy. -/
def jsonTruthy : Json → Bool
  | .null => false
  | .bool b => b
  | .num n => n != 0
  | .str s => s != ""
  | .arr elems => !elems.isEmpty
  | .obj fields => !fields.isEmpty

/-- Result of running a Python function that may call `sys.exit`:
either a returned value or process termination with an exit code. -/
inductive ProcResult (α : Type) where
  | ret (a : α)
  | exit (code : Nat)
deriving DecidableEq

/-- The `pr_details` dict built by `extract_pr_details`. Field values are
arbitrary JSON values, as in the Python dict (`None` is `Json.null`). -/
structure PRDetails where
  title : Json
  description : Json
  number : Json
  url : Json
  repo : Json

/-- `PRAnalyzer.extract_pr_details`. The body runs inside
`try/except Exception`, and every caught exception leads to `sys.exit(1)`;
`sys.exit` itself raises `SystemExit`, which `except Exception` does not
catch. `pr = context.get("pull_request"); if not pr: sys.exit(1)` rejects an
absent, null, or otherwise falsy `pull_request` value. Attribute errors from
calling `.get` on a non-dict (`context`, `pr`, or the `repository` value) are
caught and also end in `sys.exit(1)`. -/
def extract_pr_details (context : Json) : ProcResult PRDetails :=
  match context with
  | .obj _ =>
    match context.get "pull_request" with
    | none => .exit 1
    | some pr =>
      if jsonTruthy pr then
        match pr with
        | .obj _ =>
          match (context.get "repository").getD (.obj []) with
          | .obj rfields =>
            .ret { title := (pr.get "title").getD (.str "")
                 , description := (pr.get "body").getD (.str "")
                 , number := (pr.get "number").getD .null
                 , url := (pr.get "html_url").getD .null
                 , repo := ((Json.obj rfields).get "full_name").getD .null }
          | _ => .exit 1
        | _ => .exit 1
      else .exit 1
  | _ => .exit 1

/-- The single-quote character (written via its code point to keep the file
free of quote-character literals). -/
def squote : Char := Char.ofNat 39

/-- A double or single quote, the character class closing the HTML pattern. -/
def isQuote (c : Char) : Bool := c = '"' || c = squote

/-- Lazy captured URL group of the Markdown pattern, up to the first closing
parenthesis; a newline or the end of input before it makes the group fail. -/
def mdUrl : List Char → Option (List Char × List Char)
  | ')' :: rest => some ([], rest)
  | c :: rest =>
    if c = '\n' then none
    else
      match mdUrl rest with
      | some (cap, r) => some (c :: cap, r)
      | none => none
  | [] => none

/-- Matcher for the tail of the Markdown pattern after the literal prefix:
the lazy alt text, then the two literal bracket characters, then the captured
URL. The lazy star prefers matching the bracket pair here; on failure of the
URL part it consumes one more non-newline character and retries (dot does not
match a newline). Returns the captured URL and the unconsumed suffix. -/
def mdAlt : List Char → Option (List Char × List Char)
  | ']' :: '(' :: v =>
    match mdUrl v with
    | some r => some r
    | none => mdAlt ('(' :: v)
  | c :: rest => if c = '\n' then none else mdAlt rest
  | [] => none

/-- Attempt the Markdown image pattern at the head of the input: the literal
exclamation mark and opening bracket, then `mdAlt`. -/
def mdMatchAt : List Char → Option (List Char × List Char)
  | '!' :: '[' :: t => mdAlt t
  | _ => none

/-- Greedy captured URL of the HTML pattern: a maximal nonempty run of
non-quote characters followed by a closing quote (either kind). -/
def htmlUrl (v : List Char) : Option (List Char × List Char) :=
  match v.takeWhile (fun c => !isQuote c), v.dropWhile (fun c => !isQuote c) with
  | [], _ => none
  | _, [] => none
  | run, _ :: rest => some (run, rest)

/-- The literal part after the greedy gap: `src=`, an opening quote, then the
captured URL. -/
def htmlRest : List Char → Option (List Char × List Char)
  | 's' :: 'r' :: 'c' :: '=' :: q :: v => if isQuote q then htmlUrl v else none
  | _ => none

/-- Greedy continuation of the gap character class (any character other than
a closing angle bracket): consume as much as possible first, backtracking to
try the `src=` literal at each position from right to left. -/
def htmlStar : List Char → Option (List Char × List Char)
  | [] => none
  | c :: rest =>
    if c = '>' then htmlRest (c :: rest)
    else
      match htmlStar rest with
      | some r => some r
      | none => htmlRest (c :: rest)

/-- Attempt the HTML image pattern at the head of the input: the literal
`<img`, then a nonempty gap of non-angle-bracket characters, `src=`, quote,
captured URL, quote. -/
def htmlMatchAt : List Char → Option (List Char × List Char)
  | '<' :: 'i' :: 'm' :: 'g' :: c :: rest =>
    if c = '>' then none else htmlStar rest
  | _ => none

/-- Left-to-right non-overlapping scan, as `re.findall`: try a match at each
position; on success record the capture and resume after the match. The fuel
argument (instantiated with the input length) only bounds the recursion:
every step consumes at least one character, so it is never exhausted early. -/
def scanFindAll (matchAt : List Char → Option (List Char × List Char)) :
    Nat → List Char → List (List Char)
  | 0, _ => []
  | _ + 1, [] => []
  | fuel + 1, c :: cs =>
    match matchAt (c :: cs) with
    | some (cap, rest) => cap :: scanFindAll matchAt fuel rest
    | none => scanFindAll matchAt fuel cs

/-- The Markdown-image matches of the description (captured URL group),
in order of occurrence. -/
def markdown_matches (description : String) : List String :=
  (scanFindAll mdMatchAt description.data.length description.data).map
    (fun cs => String.mk cs)

/-- The HTML-image matches of the description (captured URL group),
in order of occurrence. -/
def html_matches (description : String) : List String :=
  (scanFindAll htmlMatchAt description.data.length description.data).map
    (fun cs => String.mk cs)

/-- `PRAnalyzer.extract_images_from_description`: concatenate the matches of
both patterns and remove duplicates (the Python code returns
`list(set(images))`, whose order is unspecified; `List.dedup` is one
representative of that set). -/
def extract_images_from_description (description : String) : List String :=
  (markdown_matches description ++ html_matches description).dedup

/-- A `requests` response: its status code, its raw body bytes
(`response.content`), and the result of parsing the body as JSON
(`response.json()`), which is `none` when the body is not valid JSON. -/
structure HttpResponse where
  status : Nat
  content : List Nat
  json : Option Json

/-- `PRAnalyzer.download_image`, parametrised by the simulated transport
(`requests.get`); `Except.error` models a raised exception, including a
timeout. Status 200 yields the body bytes; any other status, and any
exception, is caught and yields `none` — the function itself never raises. -/
def download_image (get : String → Except Unit HttpResponse)
    (image_url : String) : Option (List Nat) :=
  match get image_url with
  | .error _ => none
  | .ok response => if response.status = 200 then some response.content else none

/-- Python `str.lower`, per character (ASCII case mapping, which covers the
file-extension suffixes under scrutiny). -/
def lowerString (s : String) : String := String.mk (s.data.map Char.toLower)

/-- Python `str.endswith`: the second string is a suffix of the first. -/
def endsWithString (s suffix : String) : Bool := suffix.data.isSuffixOf s.data

/-- The MIME-type inference of `analyze_with_gemini`
(`image_url.lower().endswith(...)`): the URL is lowercased and its suffix
checked for png, gif and webp in that order, defaulting to jpeg. -/
def inferMimeType (image_url : String) : String :=
  if endsWithString (lowerString image_url) ".png" then "image/png"
  else if endsWithString (lowerString image_url) ".gif" then "image/gif"
  else if endsWithString (lowerString image_url) ".webp" then "image/webp"
  else "image/jpeg"

/-- One element of `image_parts` in `analyze_with_gemini`: a MIME type and
the downloaded bytes. -/
structure ImagePart where
  mime_type : String
  data : List Nat
deriving DecidableEq

/-- The image-gathering loop of `analyze_with_gemini`: for each of the first
three extracted URLs (`images_to_analyze[:3]`), download it; every successful
download contributes one MIME-tagged part, failed downloads are skipped. -/
def gather_image_parts (get : String → Except Unit HttpResponse)
    (description : String) : List ImagePart :=
  ((extract_images_from_description description).take 3).filterMap
    (fun image_url =>
      (download_image get image_url).map
        (fun d => { mime_type := inferMimeType image_url, data := d }))

/-- The comment-creation endpoint URL built by `post_comment_on_pr`. -/
def comment_url (repo : String) (pr_number : Int) : String :=
  "https://api.github.com/repos/" ++ repo ++ "/issues/" ++ toString pr_number
    ++ "/comments"

/-- The JSON payload of the comment POST: the analysis text wrapped in the
fixed header prefix. -/
def comment_data (comment_body : String) : Json :=
  .obj [("body", .str ("🤖 **AI Analysis:**\n\n" ++ comment_body))]

/-- `PRAnalyzer.post_comment_on_pr`, parametrised by the simulated transport
(`requests.post`). On status 201 the code reads `response.json()["id"]`:
if the body is not valid JSON, or not a dict with an `id` key, the raised
exception is caught by the surrounding handler and the process exits with
code 1; otherwise the function returns `True`. On any other status it
returns `False`. A transport exception is likewise caught and exits. -/
def post_comment_on_pr (post : String → Json → Except Unit HttpResponse)
    (repo : String) (pr_number : Int) (comment_body : String) :
    ProcResult Bool :=
  match post (comment_url repo pr_number) (comment_data comment_body) with
  | .error _ => .exit 1
  | .ok response =>
    if response.status = 201 then
      match response.json.bind (fun j => j.get "id") with
      | some _ => .ret true
      | none => .exit 1
    else .ret false

/-- C5: for every URL and simulated transport outcome, `download_image`
returns the response bytes if and only if the transport returns HTTP status
200; any other status or a transport exception (including a timeout) yields
`none`, and the function never raises (it is total). -/
theorem download_image_iff (get : String → Except Unit HttpResponse)
    (image_url : String) (d : List Nat) :
    download_image get image_url = some d ↔
      ∃ r, get image_url = .ok r ∧ r.status = 200 ∧ r.content = d := by
  cases h : get image_url with
  | error e => simp [download_image, h]
  | ok r =>
    by_cases hs : r.status = 200 <;>
      simp [download_image, h, hs, eq_comm]

/-- C8: a description on which neither the Markdown-image pattern nor the
HTML-image pattern produces any match yields an empty extracted-image
list. -/
theorem extract_images_empty (description : String)
    (h1 : markdown_matches description = [])
    (h2 : html_matches description = []) :
    extract_images_from_description description = [] := by
  simp [extract_images_from_description, h1, h2]

/-- Closed instance of `extract_images_empty` on a concrete image-free
description. -/
theorem extract_images_empty_witness :
    markdown_matches "no images here" = [] ∧
    html_matches "no images here" = [] ∧
    extract_images_from_description "no images here" = [] :=
  ⟨rfl, rfl, extract_images_empty "no images here" rfl rfl⟩

/-- C7: when the Markdown pattern yields N distinct URLs and the HTML
pattern yields M distinct URLs with no URL common to the two, the extractor
returns a duplicate-free list of exactly N + M URLs. -/
theorem extract_images_disjoint_count (description : String) (N M : Nat)
    (h1 : (markdown_matches description).Nodup)
    (h2 : (html_matches description).Nodup)
    (h3 : (markdown_matches description).Disjoint (html_matches description))
    (hN : (markdown_matches description).length = N)
    (hM : (html_matches description).length = M) :
    (extract_images_from_description description).length = N + M ∧
      (extract_images_from_description description).Nodup := by
  have hnd : (markdown_matches description ++ html_matches description).Nodup :=
    List.nodup_append.mpr ⟨h1, h2, h3⟩
  have hself : extract_images_from_description description
      = markdown_matches description ++ html_matches description := by
    simp [extract_images_from_description, List.dedup_eq_self.mpr hnd]
  rw [hself]
  exact ⟨by simp [hN, hM], hnd⟩

/-- Closed instance of `extract_images_disjoint_count`: one Markdown image
and one different HTML image give exactly two extracted URLs. -/
theorem extract_images_disjoint_count_witness :
    (extract_images_from_description
        "![a](http://x/a.png) <img src=\"http://x/b.png\">").length = 1 + 1 ∧
      (extract_images_from_description
        "![a](http://x/a.png) <img src=\"http://x/b.png\">").Nodup :=
  extract_images_disjoint_count "![a](http://x/a.png) <img src=\"http://x/b.png\">"
    1 1 (by decide) (by decide) (List.disjoint_left.mpr (by decide)) rfl rfl

/-- C3: a URL matched by both the Markdown pattern and the HTML pattern
appears exactly once in the extracted list; the extracted list never
contains a duplicate entry. -/
theorem extract_images_dedup_law (description : String) (u : String)
    (h1 : u ∈ markdown_matches description)
    (h2 : u ∈ html_matches description) :
    (extract_images_from_description description).count u = 1 ∧
      (extract_images_from_description description).Nodup := by
  have hnd :=
    List.nodup_dedup (markdown_matches description ++ html_matches description)
  refine ⟨?_, hnd⟩
  have hm : u ∈ (markdown_matches description ++ html_matches description).dedup :=
    List.mem_dedup.mpr (List.mem_append_left _ h1)
  exact List.count_eq_one_of_mem hnd hm

/-- Closed instance of `extract_images_dedup_law` on the scenario where the
same URL occurs in Markdown form and in HTML form. -/
theorem extract_images_dedup_law_witness :
    (extract_images_from_description
        "![shot](http://x/a.png) and <img src=\x27http://x/a.png\x27>").count
        "http://x/a.png" = 1 ∧
      (extract_images_from_description
        "![shot](http://x/a.png) and <img src=\x27http://x/a.png\x27>").Nodup :=
  extract_images_dedup_law
    "![shot](http://x/a.png) and <img src=\x27http://x/a.png\x27>"
    "http://x/a.png" (by decide) (by decide)

/-- C6: the analyzer attaches at most three image payloads, and every
attached payload comes from one of the first three URLs of the extracted
list (`images_to_analyze[:3]`), carrying its downloaded bytes and inferred
MIME type. -/
theorem gather_image_parts_bound (get : String → Except Unit HttpResponse)
    (description : String) (p : ImagePart)
    (hp : p ∈ gather_image_parts get description) :
    (gather_image_parts get description).length ≤ 3 ∧
      ∃ u ∈ (extract_images_from_description description).take 3,
        download_image get u = some p.data ∧ p.mime_type = inferMimeType u := by
  constructor
  · calc (gather_image_parts get description).length
        ≤ ((extract_images_from_description description).take 3).length :=
          List.length_filterMap_le _ _
      _ ≤ 3 := by rw [List.length_take]; exact min_le_left _ _
  · obtain ⟨u, hu, hmap⟩ := List.mem_filterMap.mp hp
    obtain ⟨d, hd, hpd⟩ := Option.map_eq_some'.mp hmap
    refine ⟨u, hu, ?_, ?_⟩
    · rw [hd, ← hpd]
    · rw [← hpd]

/-- Closed instance of `gather_image_parts_bound`: with a transport that
returns bytes `[7]` with status 200, a one-image description yields the
single png-tagged part. -/
theorem gather_image_parts_bound_witness :
    (gather_image_parts (fun _ => Except.ok ⟨200, [7], none⟩)
        "![a](http://x/a.png)").length ≤ 3 ∧
      ∃ u ∈ (extract_images_from_description "![a](http://x/a.png)").take 3,
        download_image (fun _ => Except.ok ⟨200, [7], none⟩) u
            = some (ImagePart.mk "image/png" [7]).data ∧
          (ImagePart.mk "image/png" [7]).mime_type = inferMimeType u :=
  gather_image_parts_bound (fun _ => Except.ok ⟨200, [7], none⟩)
    "![a](http://x/a.png)" (ImagePart.mk "image/png" [7]) (by
      have hm : ImagePart.mk "image/png" [7] ∈ [ImagePart.mk "image/png" [7]] :=
        List.mem_singleton_self _
      exact hm)

/-- C10: the `pull_request` check is a truthiness check, so a payload whose
`pull_request` key is present but bound to the empty object or to null is
rejected and the process exits with code 1. -/
theorem extract_pr_details_truthiness (context : Json)
    (h : context.get "pull_request" = some (Json.obj [])
       ∨ context.get "pull_request" = some Json.null) :
    extract_pr_details context = .exit 1 := by
  cases context <;>
    rcases h with h | h <;>
      simp_all [extract_pr_details, Json.get, jsonTruthy]

/-- Closed instance of `extract_pr_details_truthiness`: an event whose
`pull_request` is the empty object exits with code 1. -/
theorem extract_pr_details_truthiness_witness :
    extract_pr_details (Json.obj [("pull_request", Json.obj [])]) = .exit 1 :=
  extract_pr_details_truthiness (Json.obj [("pull_request", Json.obj [])])
    (Or.inl rfl)

/-- C9: on a 201 response whose body does not parse as a JSON dict with an
`id` key, `post_comment_on_pr` does not return `True`: the lookup failure is
caught by the surrounding handler and the process exits with code 1. -/
theorem post_comment_201_no_id (post : String → Json → Except Unit HttpResponse)
    (repo : String) (pr_number : Int) (comment_body : String) (r : HttpResponse)
    (h : post (comment_url repo pr_number) (comment_data comment_body) = .ok r)
    (h201 : r.status = 201)
    (hid : r.json.bind (fun j => j.get "id") = none) :
    post_comment_on_pr post repo pr_number comment_body = .exit 1 ∧
      post_comment_on_pr post repo pr_number comment_body ≠ .ret true := by
  have hx : post_comment_on_pr post repo pr_number comment_body = .exit 1 := by
    simp [post_comment_on_pr, h, h201, hid]
  exact ⟨hx, by rw [hx]; exact fun hc => ProcResult.noConfusion hc⟩

/-- Closed instance of `post_comment_201_no_id`: a 201 response whose JSON
body is a dict without an `id` key exits with code 1. -/
theorem post_comment_201_no_id_witness :
    post_comment_on_pr (fun _ _ => Except.ok ⟨201, [], some (Json.obj [])⟩)
        "octo/repo" 7 "LGTM" = .exit 1 ∧
      post_comment_on_pr (fun _ _ => Except.ok ⟨201, [], some (Json.obj [])⟩)
        "octo/repo" 7 "LGTM" ≠ .ret true :=
  post_comment_201_no_id (fun _ _ => Except.ok ⟨201, [], some (Json.obj [])⟩)
    "octo/repo" 7 "LGTM" ⟨201, [], some (Json.obj [])⟩ rfl rfl rfl

/-- C1 counterexample: a simulated POST response with status 201 whose body
is not valid JSON does not make `post_comment_on_pr` return `True` — the
process exits with code 1 instead, falsifying the claim that a 201 status
alone guarantees a `True` return. -/
theorem post_comment_status_cex :
    post_comment_on_pr (fun _ _ => Except.ok ⟨201, [], none⟩)
        "octo/repo" 7 "LGTM" = .exit 1 ∧
      (ProcResult.exit 1 : ProcResult Bool) ≠ .ret true :=
  ⟨rfl, fun hc => ProcResult.noConfusion hc⟩

/-- C1 (amended): for every simulated POST response, `post_comment_on_pr`
returns `True` iff the status is 201 and the body parses as a JSON dict with
an `id` key; for any status other than 201 it returns `False` without
raising or terminating. -/
theorem post_comment_status (post : String → Json → Except Unit HttpResponse)
    (repo : String) (pr_number : Int) (comment_body : String) (r : HttpResponse)
    (h : post (comment_url repo pr_number) (comment_data comment_body) = .ok r) :
    (post_comment_on_pr post repo pr_number comment_body = .ret true ↔
      r.status = 201 ∧ (r.json.bind (fun j => j.get "id")).isSome = true) ∧
    (r.status ≠ 201 →
      post_comment_on_pr post repo pr_number comment_body = .ret false) := by
  constructor
  · constructor
    · intro hret
      by_cases h201 : r.status = 201
      · refine ⟨h201, ?_⟩
        cases hj : r.json.bind (fun j => j.get "id") with
        | none => simp [post_comment_on_pr, h, h201, hj] at hret
        | some v => simp
      · simp [post_comment_on_pr, h, h201] at hret
    · rintro ⟨h201, hsome⟩
      cases hj : r.json.bind (fun j => j.get "id") with
      | none => rw [hj] at hsome; simp at hsome
      | some v => simp [post_comment_on_pr, h, h201, hj]
  · intro h201
    simp [post_comment_on_pr, h, h201]

/-- Closed instance of `post_comment_status`: a 201 response with a JSON
dict body carrying an `id` makes the poster return `True`. -/
theorem post_comment_status_witness :
    post_comment_on_pr
        (fun _ _ => Except.ok ⟨201, [], some (Json.obj [("id", Json.num 5)])⟩)
        "octo/repo" 7 "LGTM" = .ret true :=
  (post_comment_status
      (fun _ _ => Except.ok ⟨201, [], some (Json.obj [("id", Json.num 5)])⟩)
      "octo/repo" 7 "LGTM" ⟨201, [], some (Json.obj [("id", Json.num 5)])⟩
      rfl).1.mpr ⟨rfl, rfl⟩

/-- C2 counterexample: a payload whose `pull_request.body` is present but
null produces a `description` of null (Python `pr.get("body", "")` only
substitutes the default when the key is absent), falsifying the claim that a
null body yields the empty string. -/
theorem extract_pr_details_null_body_cex :
    extract_pr_details (Json.obj
        [("pull_request",
            Json.obj [("body", Json.null), ("number", Json.num 7)]),
         ("repository", Json.obj [("full_name", Json.str "octo/repo")])])
      = .ret { title := .str "", description := Json.null, number := .num 7,
               url := .null, repo := .str "octo/repo" } ∧
      Json.null ≠ Json.str "" :=
  ⟨rfl, fun hc => Json.noConfusion hc⟩

/-- C2 (amended): for an event with a truthy `pull_request` dict and a
`repository` dict, extraction succeeds; `title` and `description` default to
the empty string only when the respective key is absent (a present key is
taken verbatim, so a null body gives a null description), and `number`,
`html_url` and the repository `full_name` are taken from the corresponding
payload fields (null when absent). -/
theorem extract_pr_details_defaults (cf prf rfields : List (String × Json))
    (hpr : (Json.obj cf).get "pull_request" = some (Json.obj prf))
    (hne : prf ≠ [])
    (hrepo : (Json.obj cf).get "repository" = some (Json.obj rfields)) :
    ∃ d, extract_pr_details (Json.obj cf) = .ret d ∧
      (prf.lookup "title" = none → d.title = .str "") ∧
      (∀ v, prf.lookup "title" = some v → d.title = v) ∧
      (prf.lookup "body" = none → d.description = .str "") ∧
      (∀ v, prf.lookup "body" = some v → d.description = v) ∧
      d.number = (prf.lookup "number").getD .null ∧
      d.url = (prf.lookup "html_url").getD .null ∧
      d.repo = (rfields.lookup "full_name").getD .null := by
  have htr : jsonTruthy (Json.obj prf) = true := by
    cases prf with
    | nil => exact absurd rfl hne
    | cons a l => simp [jsonTruthy]
  refine ⟨{ title := (prf.lookup "title").getD (.str "")
          , description := (prf.lookup "body").getD (.str "")
          , number := (prf.lookup "number").getD .null
          , url := (prf.lookup "html_url").getD .null
          , repo := (rfields.lookup "full_name").getD .null },
    ?_, ?_, ?_, ?_, ?_, rfl, rfl, rfl⟩
  · have hpr2 : List.lookup "pull_request" cf = some (Json.obj prf) := hpr
    have hrepo2 : List.lookup "repository" cf = some (Json.obj rfields) := hrepo
    simp [extract_pr_details, Json.get, hpr2, hrepo2, htr]
  · intro hnone; simp [hnone]
  · intro v hv; simp [hv]
  · intro hnone; simp [hnone]
  · intro v hv; simp [hv]

/-- Closed instance of `extract_pr_details_defaults` on a payload with a
title and number but no body: the description defaults to the empty
string. -/
theorem extract_pr_details_defaults_witness :
    ∃ d, extract_pr_details (Json.obj
        [("pull_request",
            Json.obj [("title", Json.str "Fix bug"), ("number", Json.num 42)]),
         ("repository", Json.obj [("full_name", Json.str "acme/repo")])])
        = .ret d ∧
      ([("title", Json.str "Fix bug"),
        ("number", Json.num 42)].lookup "title" = none → d.title = .str "") ∧
      (∀ v, [("title", Json.str "Fix bug"),
        ("number", Json.num 42)].lookup "title" = some v → d.title = v) ∧
      ([("title", Json.str "Fix bug"),
        ("number", Json.num 42)].lookup "body" = none →
          d.description = .str "") ∧
      (∀ v, [("title", Json.str "Fix bug"),
        ("number", Json.num 42)].lookup "body" = some v → d.description = v) ∧
      d.number = ([("title", Json.str "Fix bug"),
        ("number", Json.num 42)].lookup "number").getD .null ∧
      d.url = ([("title", Json.str "Fix bug"),
        ("number", Json.num 42)].lookup "html_url").getD .null ∧
      d.repo = ([("full_name",
        Json.str "acme/repo")].lookup "full_name").getD .null :=
  extract_pr_details_defaults
    [("pull_request",
        Json.obj [("title", Json.str "Fix bug"), ("number", Json.num 42)]),
     ("repository", Json.obj [("full_name", Json.str "acme/repo")])]
    [("title", Json.str "Fix bug"), ("number", Json.num 42)]
    [("full_name", Json.str "acme/repo")]
    rfl (List.cons_ne_nil _ _) rfl

/-- C4 counterexample: the code lowercases the URL before the suffix check,
so a URL ending in upper-case `.PNG` — which does not end with the literal
suffix `.png` and therefore falls in the claim's "every other URL" bucket —
is tagged `image/png`, not `image/jpeg`. -/
theorem inferMimeType_case_cex :
    inferMimeType "http://x/SHOT.PNG" = "image/png" ∧
      endsWithString "http://x/SHOT.PNG" ".png" = false ∧
      ("image/png" : String) ≠ "image/jpeg" :=
  ⟨by decide, by decide, by decide⟩

/-- C4 (amended): the suffix check is applied to the lowercased URL, testing
png, gif and webp in that order: a URL whose lowercase form ends in `.png`
is tagged `image/png`, likewise for `.gif` and `.webp`, and every URL whose
lowercase form matches none of the three (including `.jpg` suffixes, no
extension, and query strings) is tagged `image/jpeg`. -/
theorem inferMimeType_spec (image_url : String) :
    (endsWithString (lowerString image_url) ".png" = true →
      inferMimeType image_url = "image/png") ∧
    (endsWithString (lowerString image_url) ".png" = false →
      endsWithString (lowerString image_url) ".gif" = true →
      inferMimeType image_url = "image/gif") ∧
    (endsWithString (lowerString image_url) ".png" = false →
      endsWithString (lowerString image_url) ".gif" = false →
      endsWithString (lowerString image_url) ".webp" = true →
      inferMimeType image_url = "image/webp") ∧
    (endsWithString (lowerString image_url) ".png" = false →
      endsWithString (lowerString image_url) ".gif" = false →
      endsWithString (lowerString image_url) ".webp" = false →
      inferMimeType image_url = "image/jpeg") := by
  refine ⟨fun h1 => ?_, fun h1 h2 => ?_, fun h1 h2 h3 => ?_,
    fun h1 h2 h3 => ?_⟩ <;>
      simp [inferMimeType, h1]
  · simp [h2]
  · simp [h2, h3]
  · simp [h2, h3]

/-- Closed instance of `inferMimeType_spec`: an upper-case `.GIF` URL is
tagged `image/gif`. -/
theorem inferMimeType_spec_witness :
    endsWithString (lowerString "http://x/anim.GIF") ".gif" = true ∧
      inferMimeType "http://x/anim.GIF" = "image/gif" :=
  ⟨by decide,
    (inferMimeType_spec "http://x/anim.GIF").2.1 (by decide) (by decide)⟩
